import Mathlib

/-!
Verification of the unilogger tracking client against its specification.

The development shallowly embeds the Python sources:
  * `pck67_pkg/client.py` — `TrackingClient`: request builders for the HTTP
    API (`log_metric`, `log_message`, `query_metrics`, `finish_run`,
    `upload_file`), with the transport's answer supplied as an explicit
    `Except` argument;
  * `pck67_pkg/run.py` — `Run`: the local view of a run record and its
    lifecycle (`__init__`, `finish`);
  * `logger.py` — `TrackingHandler` (the log bridge) and
    `TrackingManager.initialize_client` (the session manager), with the
    singleton's mutable fields carried as an explicit state record and every
    server interaction's outcome supplied by a `ServerBehavior` oracle.

JSON scalar payloads are carried by the opaque sum `Val`; the client performs
no arithmetic on them, it only copies them into requests and out of
responses, so `Val.num : Int` stands in for Python's numbers.
-/

/-- A JSON-ish scalar value as it appears in request/response payloads. -/
inductive Val where
  | num (n : Int)
  | str (s : String)
  | bool (b : Bool)
  | null
deriving DecidableEq, Repr

/-- Python transport failure (`requests` exception / non-2xx raised by
`raise_for_status`), carried opaquely: the client never inspects it. -/
structure TransportErr where
  code : Nat
deriving DecidableEq, Repr

/-- One HTTP request as the client builds it: method, path, JSON body and
query parameters (both as insertion-ordered association lists, matching
Python dict order). -/
structure Request where
  method : String
  path : String
  body : List (String × Val)
  params : List (String × Val)
deriving DecidableEq, Repr

/-- `dict.get(key)` on an association list: first binding wins. -/
def dictGet (d : List (String × Val)) (k : String) : Option Val :=
  match d with
  | [] => none
  | (k', v) :: rest => if k' = k then some v else dictGet rest k

/-- Python `f"{x}"` on an `Optional[int]`: `None` prints as `"None"`. -/
def pyStr : Option Nat → String
  | some n => toString n
  | none => "None"

/-! ## Request builders from `client.py`

Each builder is the pure part of the corresponding `TrackingClient` method:
the URL path and payload it hands to `_request`. The transport's reply is
threaded separately where a claim needs it. -/

/-- `TrackingClient.log_metric`: `POST /runs/{run_id}/log` with
`{"name": name, "value": value, "step": step}`. The `value` parameter is
annotated `float` in the source but Python does not enforce it, so it is
typed by the payload sum `Val`. -/
def log_metric_request (run_id : Nat) (name : String) (value : Val) (step : Nat) : Request :=
  { method := "POST"
    path := "/runs/" ++ toString run_id ++ "/log"
    body := [("name", Val.str name), ("value", value), ("step", Val.num step)]
    params := [] }

/-- `TrackingClient.log_message`: `POST /runs/{run_id}/log` with
`{"name": "console_output", "value": message, "step": step}`. -/
def log_message_request (run_id : Nat) (message : String) (step : Nat) : Request :=
  { method := "POST"
    path := "/runs/" ++ toString run_id ++ "/log"
    body := [("name", Val.str "console_output"), ("value", Val.str message),
             ("step", Val.num step)]
    params := [] }

/-- `TrackingClient.finish_run`: `POST /runs/{run_id}/finish`. The run id
comes from `Run.id`, which may be `None`, and Python interpolates `None`
into the URL as the text `"None"`. -/
def finish_run_request (run_id : Option Nat) : Request :=
  { method := "POST"
    path := "/runs/" ++ pyStr run_id ++ "/finish"
    body := []
    params := [] }

/-- `TrackingClient.query_metrics`: builds the five-key params dict (values
possibly `None`) and then drops the `None` entries —
`{k: v for k, v in params.items() if v is not None}` — before issuing
`GET /runs/{run_id}/metrics/query`. -/
def query_metrics_request (run_id : Nat) (metric_name : Option String)
    (min_value max_value : Option Int) (min_step max_step : Option Int) : Request :=
  let raw : List (String × Option Val) :=
    [("metric_name", metric_name.map Val.str),
     ("min_value", min_value.map Val.num),
     ("max_value", max_value.map Val.num),
     ("min_step", min_step.map Val.num),
     ("max_step", max_step.map Val.num)]
  { method := "GET"
    path := "/runs/" ++ toString run_id ++ "/metrics/query"
    body := []
    params := raw.filterMap (fun kv => kv.2.map (fun v => (kv.1, v))) }

/-! ## `Run` from `run.py` -/

/-- The decoded JSON record the server returns for a run; every field is
optional because `Run.__init__` reads each with `run_data.get(...)`. -/
structure RunData where
  id : Option Nat
  name : Option String
  status : Option String
  project_id : Option Nat
  created_at : Option String
  finished_at : Option String
  config : Option (List (String × Val))
  storage_used_mb : Option Nat
  notes : Option String
  tags : Option (List String)
  hostname : Option String
  os_info : Option String
  python_version : Option String
  python_executable : Option String
  command : Option String
  cli_version : Option String
  runtime_seconds : Option Val
deriving DecidableEq, Repr

/-- The local view of a run, mirroring the fields `Run.__init__` assigns.
Fields read with a `.get` default (`config`, `storage_used_mb`, `tags`)
carry the default already applied. -/
structure Run where
  id : Option Nat
  name : Option String
  status : Option String
  project_id : Option Nat
  created_at : Option String
  finished_at : Option String
  config : List (String × Val)
  storage_used_mb : Nat
  notes : Option String
  tags : List String
  hostname : Option String
  os_info : Option String
  python_version : Option String
  python_executable : Option String
  command : Option String
  cli_version : Option String
  runtime_seconds : Option Val
deriving DecidableEq, Repr

/-- `Run.__init__(client, run_data)`: copy each field out of the server
record, with the source's defaults for `config` (`{}`),
`storage_used_mb` (`0`) and `tags` (`[]`). -/
def Run.ofData (d : RunData) : Run :=
  { id := d.id
    name := d.name
    status := d.status
    project_id := d.project_id
    created_at := d.created_at
    finished_at := d.finished_at
    config := d.config.getD []
    storage_used_mb := d.storage_used_mb.getD 0
    notes := d.notes
    tags := d.tags.getD []
    hostname := d.hostname
    os_info := d.os_info
    python_version := d.python_version
    python_executable := d.python_executable
    command := d.command
    cli_version := d.cli_version
    runtime_seconds := d.runtime_seconds }

/-- The decoded response of `POST /runs/{id}/finish`; `Run.finish` reads it
with `response.get("runtime_seconds")`. -/
structure FinishResp where
  runtime_seconds : Option Val
deriving DecidableEq, Repr

/-- `Run.finish`: issues `finish_run(self.id)`; on a transport failure the
exception propagates; on success the client mirrors `status = "finished"`,
caches `runtime_seconds` from the response, and returns the response.
The first component is the request that was issued (issued in both cases:
the request goes out before the transport can fail). -/
def Run.finish (r : Run) (transport : Except TransportErr FinishResp) :
    Request × Except TransportErr (Run × FinishResp) :=
  (finish_run_request r.id,
    match transport with
    | .error e => .error e
    | .ok resp =>
        .ok ({ r with status := some "finished",
                      runtime_seconds := resp.runtime_seconds }, resp))

/-! ## `upload_file` from `client.py` -/

/-- `os.path.basename`: the part of the path after the last `/`. -/
def basename (p : String) : String :=
  (p.splitOn "/").getLastD ""

/-- Errors `TrackingClient.upload_file` can raise: the local
`FileNotFoundError` or a transport failure from `raise_for_status`. -/
inductive UploadErr where
  | fileNotFound (msg : String)
  | transport (e : TransportErr)
deriving DecidableEq, Repr

/-- `TrackingClient.upload_file(run_id, file_path, file_type)`: if the local
path does not exist, raise `FileNotFoundError` before any HTTP request;
otherwise issue `POST /runs/{run_id}/upload-file` with the file as multipart
body and `file_type` as a query parameter only when truthy
(`{'file_type': file_type} if file_type else {}`). The filesystem is the
predicate `fs` (`os.path.exists`); the first component lists the HTTP
requests the call issued. -/
def upload_file (fs : String → Bool) (run_id : Nat) (file_path : String)
    (file_type : Option String) (transport : Except TransportErr (List (String × Val))) :
    List Request × Except UploadErr (List (String × Val)) :=
  if fs file_path then
    let params : List (String × Val) :=
      match file_type with
      | some t => if t = "" then [] else [("file_type", Val.str t)]
      | none => []
    let req : Request :=
      { method := "POST"
        path := "/runs/" ++ toString run_id ++ "/upload-file"
        body := [("file", Val.str (basename file_path))]
        params := params }
    ([req],
      match transport with
      | .ok j => .ok j
      | .error e => .error (.transport e))
  else
    ([], .error (.fileNotFound ("File not found: " ++ file_path)))

/-! ## The log bridge: `TrackingHandler` from `logger.py` -/

/-- The mutable state of one `TrackingHandler` instance: the run it logs to
and its per-instance step counter (`__init__` sets it to 0). The `client`
field of the Python object carries no state the bridge reads, so it is not
modelled. -/
structure TrackingHandler where
  run_id : Option Nat
  step_counter : Nat
deriving DecidableEq, Repr

/-- `TrackingHandler.__init__(client, run_id)`: counter starts at 0.  The
run id is whatever `Run.id` held, possibly `None`. -/
def TrackingHandler.init (run_id : Option Nat) : TrackingHandler :=
  { run_id := run_id, step_counter := 0 }

/-- The environment's behaviour for one `emit` call: `self.format` and the
transport under `client.log_message` each either succeed or raise. -/
inductive EmitBehavior where
  | ok
  | formatRaises
  | sendRaises
deriving DecidableEq, Repr

/-- The arguments of one `client.log_message(run_id, log_entry, step)` call
made by the bridge. -/
structure SentRecord where
  run_id : Option Nat
  message : String
  step : Nat
deriving DecidableEq, Repr

/-- An exception inside the try body of `emit`: either `self.format` raised
(before the counter was touched) or the send raised (after the increment;
the attempted record is what `log_message` was called with). -/
inductive EmitErr where
  | formatError
  | sendError (attempted : SentRecord)
deriving DecidableEq, Repr

/-- The try body of `TrackingHandler.emit`:
`log_entry = self.format(record)`, then `self.step_counter += 1`, then
`self.client.log_message(self.run_id, log_entry, step=self.step_counter)`.
Returns the handler state after the body (mutations made before an
exception persist) together with the body's outcome.  The formatted text is
taken to be `msg` itself when formatting succeeds: its content is
irrelevant to every property proved here. -/
def emitTry (h : TrackingHandler) (msg : String) (b : EmitBehavior) :
    TrackingHandler × Except EmitErr SentRecord :=
  match b with
  | .formatRaises => (h, .error .formatError)
  | .sendRaises =>
      ({ h with step_counter := h.step_counter + 1 },
       .error (.sendError ⟨h.run_id, msg, h.step_counter + 1⟩))
  | .ok =>
      ({ h with step_counter := h.step_counter + 1 },
       .ok ⟨h.run_id, msg, h.step_counter + 1⟩)

/-- What one `emit` call did, from the caller's point of view. -/
inductive EmitOutcome where
  | sent (r : SentRecord)
  | handledFormatError
  | handledSendError (attempted : SentRecord)
deriving DecidableEq, Repr

/-- `True` exactly when the outcome went through `self.handleError`. -/
def EmitOutcome.handled : EmitOutcome → Bool
  | .sent _ => false
  | .handledFormatError => true
  | .handledSendError _ => true

/-- `TrackingHandler.emit`: the try body wrapped in
`except Exception: self.handleError(record)` — every exception from the
body is converted into a handled outcome and `emit` returns normally. -/
def emit (h : TrackingHandler) (msg : String) (b : EmitBehavior) :
    TrackingHandler × EmitOutcome :=
  match emitTry h msg b with
  | (h2, .ok r) => (h2, .sent r)
  | (h2, .error .formatError) => (h2, .handledFormatError)
  | (h2, .error (.sendError att)) => (h2, .handledSendError att)

/-- A sequence of `emit` calls on one handler, each with its message and
its environment behaviour, folding the handler state through and collecting
the outcomes in order. -/
def runEmits (h : TrackingHandler) (inputs : List (String × EmitBehavior)) :
    TrackingHandler × List EmitOutcome :=
  match inputs with
  | [] => (h, [])
  | (m, b) :: rest =>
      let p := emit h m b
      let q := runEmits p.1 rest
      (q.1, p.2 :: q.2)

/-- The steps of the records actually forwarded (persisted) by a sequence
of emissions. -/
def sentSteps (outs : List EmitOutcome) : List Nat :=
  outs.filterMap fun o =>
    match o with
    | .sent r => some r.step
    | _ => none

/-- The steps consumed by emissions whose send failed. -/
def failedSteps (outs : List EmitOutcome) : List Nat :=
  outs.filterMap fun o =>
    match o with
    | .handledSendError r => some r.step
    | _ => none

/-- The steps consumed by all emissions that got past formatting (sent or
send-failed), in emission order. -/
def consumedSteps (outs : List EmitOutcome) : List Nat :=
  outs.filterMap fun o =>
    match o with
    | .sent r => some r.step
    | .handledSendError r => some r.step
    | .handledFormatError => none

/-! ## The session manager: `TrackingManager.initialize_client` from `logger.py` -/

/-- A team or project entity as listed by the server; `initialize_client`
only ever reads `['name']` and `['id']`. -/
structure Entity where
  id : Nat
  name : String
deriving DecidableEq, Repr

/-- The name-scan loop of `initialize_client`:
`for e in entities: if e['name'] == name: take e['id']; break` —
first exact match in server order. -/
def findByName (entities : List Entity) (name : String) : Option Nat :=
  match entities with
  | [] => none
  | e :: rest => if e.name = name then some e.id else findByName rest name

/-- One find-or-create resolution step as `initialize_client` performs it
for a team (and identically for a project): list the entities in the parent
scope, scan for the name, reuse the id on a hit, otherwise create.  The
server's contract (§6 of the spec) is modelled minimally: `create` returns
an entity carrying the requested name and a server-chosen id `freshId`, and
the scope's listing afterwards includes it (appended).  Result:
(resolved id, server listing after the call, whether create was called). -/
def resolveStep (entities : List Entity) (name : String) (freshId : Nat) :
    Nat × List Entity × Bool :=
  match findByName entities name with
  | some i => (i, entities, false)
  | none => (freshId, entities ++ [⟨freshId, name⟩], true)

/-- The `ValueError` raised when no API key is available. -/
inductive ConfigError where
  | missingApiKey
deriving DecidableEq, Repr

/-- The credential step of `initialize_client`:
`if api_key is None: api_key = os.getenv("TRACKING_API_KEY"); if not api_key: raise ValueError(...)`.
Note the truthiness test: an empty string from the environment also raises,
while an explicitly passed empty string does not (the `not api_key` check
sits inside the `api_key is None` branch). -/
def resolveKey (api_key env_api_key : Option String) : Except ConfigError String :=
  match api_key with
  | some k => .ok k
  | none =>
      match env_api_key with
      | some e => if e = "" then .error .missingApiKey else .ok e
      | none => .error .missingApiKey

/-- The logger handle `setup_tracking_logger` returns: a logger of the given
name with a fresh `TrackingHandler` attached.  Building it involves no
server interaction and cannot fail. -/
structure LoggerHandle where
  name : String
  handler : TrackingHandler
deriving DecidableEq, Repr

/-- `setup_tracking_logger(client, run_id, name, level)`: attaches a fresh
`TrackingHandler` (counter 0) for `run_id` to a logger of that name. -/
def setup_tracking_logger (run_id : Option Nat) (name : String) : LoggerHandle :=
  { name := name, handler := TrackingHandler.init run_id }

/-- The mutable fields of the `TrackingManager` singleton that
`initialize_client` assigns (`__init__` starts them all at `None`).  The
`client` field is reduced to the API key the constructed `TrackingClient`
holds. -/
structure TrackingManagerState where
  client : Option String
  team_id : Option Nat
  project_id : Option Nat
  run : Option Run
  logger : Option LoggerHandle
deriving DecidableEq, Repr

/-- The outcome of each server interaction `initialize_client` can make, in
order; each is consulted at most once per call.  `create_team` /
`create_project` answer with the created entity, `init_run` with the
decoded run record. -/
structure ServerBehavior where
  list_teams : Except TransportErr (List Entity)
  create_team : Except TransportErr Entity
  list_projects : Except TransportErr (List Entity)
  create_project : Except TransportErr Entity
  init_run : Except TransportErr RunData
deriving Repr

/-- `TrackingManager.initialize_client(api_key, team_name, ..., run_name)`.
Returns the singleton state after the call together with the call's result:
`.error` when the pre-try `ValueError` for a missing credential propagates
(state untouched — nothing was assigned yet), `.ok none` when an exception
inside the try block was caught (mutations made before it persist) and
`.ok (some logger)` on full success.  The logger name is
`f"{project_name.lower().replace(' ', '_')}_logger"`. -/
def initialize_client (st : TrackingManagerState)
    (api_key env_api_key : Option String)
    (team_name project_name _run_name : String)
    (w : ServerBehavior) :
    TrackingManagerState × Except ConfigError (Option LoggerHandle) :=
  match resolveKey api_key env_api_key with
  | .error e => (st, .error e)
  | .ok key =>
    let st := { st with client := some key }
    match w.list_teams with
    | .error _ => (st, .ok none)
    | .ok teams =>
      let afterTeam : Option TrackingManagerState :=
        match findByName teams team_name with
        | some i => some { st with team_id := some i }
        | none =>
            match w.create_team with
            | .error _ => none
            | .ok t => some { st with team_id := some t.id }
      match afterTeam with
      | none => (st, .ok none)
      | some st =>
        match w.list_projects with
        | .error _ => (st, .ok none)
        | .ok projects =>
          let afterProject : Option TrackingManagerState :=
            match findByName projects project_name with
            | some i => some { st with project_id := some i }
            | none =>
                match w.create_project with
                | .error _ => none
                | .ok p => some { st with project_id := some p.id }
          match afterProject with
          | none => (st, .ok none)
          | some st =>
            match w.init_run with
            | .error _ => (st, .ok none)
            | .ok d =>
              let r := Run.ofData d
              let st := { st with run := some r }
              let lh := setup_tracking_logger r.id
                ((project_name.toLower.replace " " "_") ++ "_logger")
              let st := { st with logger := some lh }
              (st, .ok (some lh))

/-! ## Theorems -/

/-- If a name-scan misses the whole listing, it hits an entity of that name
appended at the end (the server's create making it visible). -/
lemma findByName_append_self (l : List Entity) (name : String) (i : Nat)
    (h : findByName l name = none) :
    findByName (l ++ [⟨i, name⟩]) name = some i := by
  induction l with
  | nil => simp [findByName]
  | cons e rest ih =>
      by_cases he : e.name = name
      · simp [findByName, he] at h
      · simp only [findByName, List.cons_append, he, if_false] at h ⊢
        exact ih h

/-- C1. Resource resolution is idempotent: a second find-or-create call with
the same name, against the listing produced by the first call, returns the
id the first call returned, issues no create call, and leaves the listing
unchanged.  The scan takes the first exact match in server order; on a
miss the create's id is reused. -/
theorem resolution_idempotent (entities : List Entity) (name : String) (f1 f2 : Nat) :
    (resolveStep (resolveStep entities name f1).2.1 name f2).1 =
      (resolveStep entities name f1).1 ∧
    (resolveStep (resolveStep entities name f1).2.1 name f2).2.2 = false ∧
    (resolveStep (resolveStep entities name f1).2.1 name f2).2.1 =
      (resolveStep entities name f1).2.1 := by
  rcases h : findByName entities name with _ | i
  · have happ := findByName_append_self entities name f1 h
    simp [resolveStep, h, happ]
  · simp [resolveStep, h]

/-- C8. `log_message` is exactly `log_metric` with the fixed name
`"console_output"` and the message text as value: both build the same
request to the same endpoint. -/
theorem log_message_is_log_metric (run_id : Nat) (message : String) (step : Nat) :
    log_message_request run_id message step =
      log_metric_request run_id "console_output" (Val.str message) step := rfl

/-- C6. `upload_file` checks local existence first: when the path does not
exist it raises `FileNotFoundError` and issues no HTTP request at all; when
the path exists, exactly one request is issued, the upload `POST` for that
run. -/
theorem upload_file_local_check_first (fs : String → Bool) (run_id : Nat)
    (file_path : String) (file_type : Option String)
    (transport : Except TransportErr (List (String × Val))) :
    (fs file_path = false →
      (upload_file fs run_id file_path file_type transport).1 = [] ∧
      (upload_file fs run_id file_path file_type transport).2 =
        .error (.fileNotFound ("File not found: " ++ file_path))) ∧
    (fs file_path = true →
      (upload_file fs run_id file_path file_type transport).1.length = 1 ∧
      ∀ req ∈ (upload_file fs run_id file_path file_type transport).1,
        req.method = "POST" ∧
        req.path = "/runs/" ++ toString run_id ++ "/upload-file") := by
  constructor
  · intro hmiss
    simp [upload_file, hmiss]
  · intro hhit
    simp [upload_file, hhit]

/-- C6 witness: with a filesystem where only `"data/model.bin"` exists, the
missing path `"data/none.bin"` yields `FileNotFoundError` with no request,
and the existing path yields exactly one `POST` upload request. -/
theorem upload_file_local_check_first_witness :
    ((upload_file (fun p => p == "data/model.bin") 7 "data/none.bin" (some "model")
        (.ok [])).1 = [] ∧
      (upload_file (fun p => p == "data/model.bin") 7 "data/none.bin" (some "model")
        (.ok [])).2 = .error (.fileNotFound ("File not found: " ++ "data/none.bin"))) ∧
    ((upload_file (fun p => p == "data/model.bin") 7 "data/model.bin" (some "model")
        (.ok [])).1.length = 1 ∧
      ∀ req ∈ (upload_file (fun p => p == "data/model.bin") 7 "data/model.bin" (some "model")
          (.ok [])).1,
        req.method = "POST" ∧ req.path = "/runs/" ++ toString 7 ++ "/upload-file") :=
  ⟨(upload_file_local_check_first (fun p => p == "data/model.bin") 7 "data/none.bin"
      (some "model") (.ok [])).1 (by decide),
   (upload_file_local_check_first (fun p => p == "data/model.bin") 7 "data/model.bin"
      (some "model") (.ok [])).2 (by decide)⟩

/-- C5. Run lifecycle: a run built from a server record with status
`"running"` has local status `"running"`; a successful `finish` flips the
local status to `"finished"` and caches the response's `runtime_seconds`;
a second `finish` re-issues the very same finish request and also returns
normally. -/
theorem run_lifecycle (d : RunData) (resp1 resp2 : FinishResp)
    (hs : d.status = some "running") :
    (Run.ofData d).status = some "running" ∧
    ∃ r1, ((Run.ofData d).finish (.ok resp1)).2 = .ok (r1, resp1) ∧
      r1.status = some "finished" ∧
      r1.runtime_seconds = resp1.runtime_seconds ∧
      (r1.finish (.ok resp2)).1 = ((Run.ofData d).finish (.ok resp1)).1 ∧
      ∃ r2, (r1.finish (.ok resp2)).2 = .ok (r2, resp2) ∧
        r2.status = some "finished" ∧
        r2.runtime_seconds = resp2.runtime_seconds := by
  refine ⟨by simp [Run.ofData, hs], ?_⟩
  exact ⟨_, rfl, rfl, rfl, rfl, _, rfl, rfl, rfl⟩

/-- C5 witness: the lifecycle theorem at a concrete server record with
status `"running"` and two concrete finish responses. -/
theorem run_lifecycle_witness :
    (Run.ofData ⟨some 42, some "r", some "running", some 1, none, none,
        none, none, none, none, none, none, none, none, none, none, none⟩).status =
      some "running" ∧
    ∃ r1, ((Run.ofData ⟨some 42, some "r", some "running", some 1, none, none,
        none, none, none, none, none, none, none, none, none, none, none⟩).finish
          (.ok ⟨some (Val.num 9)⟩)).2 = .ok (r1, ⟨some (Val.num 9)⟩) ∧
      r1.status = some "finished" ∧
      r1.runtime_seconds = (⟨some (Val.num 9)⟩ : FinishResp).runtime_seconds ∧
      (r1.finish (.ok ⟨some (Val.num 11)⟩)).1 =
        ((Run.ofData ⟨some 42, some "r", some "running", some 1, none, none,
          none, none, none, none, none, none, none, none, none, none, none⟩).finish
            (.ok ⟨some (Val.num 9)⟩)).1 ∧
      ∃ r2, (r1.finish (.ok ⟨some (Val.num 11)⟩)).2 = .ok (r2, ⟨some (Val.num 11)⟩) ∧
        r2.status = some "finished" ∧
        r2.runtime_seconds = (⟨some (Val.num 11)⟩ : FinishResp).runtime_seconds :=
  run_lifecycle ⟨some 42, some "r", some "running", some 1, none, none,
    none, none, none, none, none, none, none, none, none, none, none⟩
    ⟨some (Val.num 9)⟩ ⟨some (Val.num 11)⟩ rfl

/-- C7. `query_metrics` sends exactly the filters that were supplied: a
key/value pair is among the request's query parameters precisely when the
corresponding optional filter is `some`, with its given value; omitted
(`None`) filters contribute nothing. -/
theorem query_metrics_params_exact (run_id : Nat) (metric_name : Option String)
    (min_value max_value min_step max_step : Option Int) (k : String) (v : Val) :
    (k, v) ∈ (query_metrics_request run_id metric_name min_value max_value
        min_step max_step).params ↔
      (k = "metric_name" ∧ ∃ s, metric_name = some s ∧ v = Val.str s) ∨
      (k = "min_value" ∧ ∃ n, min_value = some n ∧ v = Val.num n) ∨
      (k = "max_value" ∧ ∃ n, max_value = some n ∧ v = Val.num n) ∨
      (k = "min_step" ∧ ∃ n, min_step = some n ∧ v = Val.num n) ∨
      (k = "max_step" ∧ ∃ n, max_step = some n ∧ v = Val.num n) := by
  rcases metric_name with _ | s <;> rcases min_value with _ | a <;>
    rcases max_value with _ | b <;> rcases min_step with _ | c <;>
    rcases max_step with _ | d <;>
    simp [query_metrics_request]

/-- C4. `emit` never lets an exception past the bridge: it leaves the
handler in the state the try body produced, and either the body succeeded
and the record was forwarded, or the body raised and the outcome went
through `self.handleError` — in both cases `emit` returns normally. -/
theorem emit_never_raises (h : TrackingHandler) (msg : String) (b : EmitBehavior) :
    (emit h msg b).1 = (emitTry h msg b).1 ∧
    ((∃ r, (emitTry h msg b).2 = .ok r ∧ (emit h msg b).2 = .sent r) ∨
     ((∃ e, (emitTry h msg b).2 = .error e) ∧ (emit h msg b).2.handled = true)) := by
  cases b <;> simp [emit, emitTry, EmitOutcome.handled]

/-- When no emission fails in formatting, a sequence of emissions consumes
consecutive step values starting just above the initial counter, and the
counter ends exactly one higher per emission — in particular it advances
also on emissions whose send failed. -/
lemma runEmits_consumed_of_no_format_failure (inputs : List (String × EmitBehavior))
    (h : TrackingHandler) (hnf : ∀ x ∈ inputs, x.2 ≠ EmitBehavior.formatRaises) :
    consumedSteps (runEmits h inputs).2 =
      List.range' (h.step_counter + 1) inputs.length ∧
    (runEmits h inputs).1.step_counter = h.step_counter + inputs.length := by
  induction inputs generalizing h with
  | nil => simp [runEmits, consumedSteps]
  | cons x rest ih =>
      obtain ⟨m, b⟩ := x
      have hrest : ∀ y ∈ rest, y.2 ≠ EmitBehavior.formatRaises :=
        fun y hy => hnf y (by simp [hy])
      obtain ⟨ih1, ih2⟩ := ih { h with step_counter := h.step_counter + 1 } hrest
      cases b with
      | formatRaises => exact absurd rfl (hnf (m, .formatRaises) (by simp))
      | ok =>
          simp only [runEmits, emit, emitTry, consumedSteps, List.filterMap_cons,
            List.length_cons] at ih1 ih2 ⊢
          rw [List.range'_succ]
          exact ⟨by rw [ih1], by omega⟩
      | sendRaises =>
          simp only [runEmits, emit, emitTry, consumedSteps, List.filterMap_cons,
            List.length_cons] at ih1 ih2 ⊢
          rw [List.range'_succ]
          exact ⟨by rw [ih1], by omega⟩

/-- The persisted steps form a sublist of all consumed steps. -/
lemma sentSteps_sublist_consumedSteps (outs : List EmitOutcome) :
    List.Sublist (sentSteps outs) (consumedSteps outs) := by
  induction outs with
  | nil => simp [sentSteps, consumedSteps]
  | cons o rest ih =>
      cases o with
      | sent r =>
          simpa [sentSteps, consumedSteps] using ih.cons₂ r.step
      | handledFormatError =>
          simpa [sentSteps, consumedSteps] using ih
      | handledSendError r =>
          simpa [sentSteps, consumedSteps] using ih.cons r.step

/-- Each consumed step is accounted for exactly once: its occurrences among
persisted steps plus those among failed-send steps give its occurrences
among all consumed steps. -/
lemma count_sentSteps_add_failedSteps (outs : List EmitOutcome) (s : Nat) :
    (sentSteps outs).count s + (failedSteps outs).count s =
      (consumedSteps outs).count s := by
  induction outs with
  | nil => simp [sentSteps, failedSteps, consumedSteps]
  | cons o rest ih =>
      cases o <;>
        simp [sentSteps, failedSteps, consumedSteps, List.count_cons] at ih ⊢ <;>
        omega

/-- Unfolding one emission of a sequence. -/
lemma runEmits_cons (h : TrackingHandler) (m : String) (b : EmitBehavior)
    (rest : List (String × EmitBehavior)) :
    runEmits h ((m, b) :: rest) =
      ((runEmits (emit h m b).1 rest).1,
       (emit h m b).2 :: (runEmits (emit h m b).1 rest).2) := rfl

/-- With every emission succeeding, the forwarded steps are the consecutive
values just above the initial counter, and the counter advances once per
emission. -/
lemma runEmits_sent_of_all_ok (inputs : List (String × EmitBehavior))
    (h : TrackingHandler) (hok : ∀ x ∈ inputs, x.2 = EmitBehavior.ok) :
    sentSteps (runEmits h inputs).2 =
      List.range' (h.step_counter + 1) inputs.length ∧
    (runEmits h inputs).1.step_counter = h.step_counter + inputs.length := by
  induction inputs generalizing h with
  | nil => simp [runEmits, sentSteps]
  | cons x rest ih =>
      obtain ⟨m, b⟩ := x
      have hb : b = EmitBehavior.ok := hok (m, b) (by simp)
      subst hb
      have hrest : ∀ y ∈ rest, y.2 = EmitBehavior.ok := fun y hy => hok y (by simp [hy])
      obtain ⟨ih1, ih2⟩ := ih { h with step_counter := h.step_counter + 1 } hrest
      rw [runEmits_cons]
      have he : emit h m EmitBehavior.ok =
          ({ h with step_counter := h.step_counter + 1 },
           EmitOutcome.sent ⟨h.run_id, m, h.step_counter + 1⟩) := rfl
      rw [he]
      constructor
      · simp only [sentSteps, List.filterMap_cons, List.length_cons, List.range'_succ]
        simpa [sentSteps] using ih1
      · simp only [List.length_cons]
        simp only at ih2
        omega

/-- C2. On a fresh bridge (counter 0, as `__init__` sets it) with every
emission succeeding, N emissions forward records whose steps are exactly
`1..N` — strictly increasing, one increment per record, the incremented
value sent — and the counter ends at N. -/
theorem bridge_steps_one_to_n (run_id : Option Nat)
    (inputs : List (String × EmitBehavior))
    (hok : ∀ x ∈ inputs, x.2 = EmitBehavior.ok) :
    sentSteps (runEmits (TrackingHandler.init run_id) inputs).2 =
      List.range' 1 inputs.length ∧
    (runEmits (TrackingHandler.init run_id) inputs).1.step_counter = inputs.length := by
  have := runEmits_sent_of_all_ok inputs (TrackingHandler.init run_id) hok
  simpa [TrackingHandler.init] using this

/-- C2 witness: three successful emissions on a fresh bridge for run 5 send
steps `[1, 2, 3]` and leave the counter at 3. -/
theorem bridge_steps_one_to_n_witness :
    sentSteps (runEmits (TrackingHandler.init (some 5))
        [("a", EmitBehavior.ok), ("b", EmitBehavior.ok), ("c", EmitBehavior.ok)]).2 =
      List.range' 1 3 ∧
    (runEmits (TrackingHandler.init (some 5))
        [("a", EmitBehavior.ok), ("b", EmitBehavior.ok), ("c", EmitBehavior.ok)]).1.step_counter
      = 3 :=
  bridge_steps_one_to_n (some 5)
    [("a", EmitBehavior.ok), ("b", EmitBehavior.ok), ("c", EmitBehavior.ok)]
    (by decide)

/-- A failed-send lemma: the failed-send steps also form a sublist of all
consumed steps. -/
lemma failedSteps_sublist_consumedSteps (outs : List EmitOutcome) :
    List.Sublist (failedSteps outs) (consumedSteps outs) := by
  induction outs with
  | nil => simp [failedSteps, consumedSteps]
  | cons o rest ih =>
      cases o with
      | sent r =>
          simpa [failedSteps, consumedSteps] using ih.cons r.step
      | handledFormatError =>
          simpa [failedSteps, consumedSteps] using ih
      | handledSendError r =>
          simpa [failedSteps, consumedSteps] using ih.cons₂ r.step

/-- C9. The counter advances on every emission that got past formatting,
failed send included: over any emission sequence without format failures,
the counter ends at start-plus-length, the persisted steps are strictly
increasing, and every step consumed by a failed send is absent from the
persisted records (so the persisted series has gaps where sends failed). -/
theorem failed_send_consumes_step (h : TrackingHandler)
    (inputs : List (String × EmitBehavior))
    (hnf : ∀ x ∈ inputs, x.2 ≠ EmitBehavior.formatRaises) :
    List.Pairwise (· < ·) (sentSteps (runEmits h inputs).2) ∧
    (runEmits h inputs).1.step_counter = h.step_counter + inputs.length ∧
    ∀ s ∈ failedSteps (runEmits h inputs).2, s ∉ sentSteps (runEmits h inputs).2 := by
  obtain ⟨hcons, hcnt⟩ := runEmits_consumed_of_no_format_failure inputs h hnf
  have hsent := sentSteps_sublist_consumedSteps (runEmits h inputs).2
  have hfail := failedSteps_sublist_consumedSteps (runEmits h inputs).2
  have hnd : (consumedSteps (runEmits h inputs).2).Nodup := by
    rw [hcons]; exact List.nodup_range' _ _
  refine ⟨?_, hcnt, ?_⟩
  · refine List.Pairwise.sublist hsent ?_
    rw [hcons]
    exact List.pairwise_lt_range' _ _
  · intro s hsf hss
    have hc := count_sentSteps_add_failedSteps (runEmits h inputs).2 s
    have h1 : 0 < (sentSteps (runEmits h inputs).2).count s :=
      List.count_pos_iff.mpr hss
    have h2 : 0 < (failedSteps (runEmits h inputs).2).count s :=
      List.count_pos_iff.mpr hsf
    have h3 : (consumedSteps (runEmits h inputs).2).count s ≤ 1 :=
      List.nodup_iff_count_le_one.mp hnd s
    omega

/-- C9 witness: on a fresh bridge, emissions `ok, sendRaises, ok` persist
steps `[1, 3]` (strictly increasing, with a gap), the failed send consumed
step 2 which appears in no persisted record, and the counter still ends at
3. -/
theorem failed_send_consumes_step_witness :
    List.Pairwise (· < ·)
      (sentSteps (runEmits (TrackingHandler.init (some 5))
        [("a", EmitBehavior.ok), ("b", EmitBehavior.sendRaises),
         ("c", EmitBehavior.ok)]).2) ∧
    (runEmits (TrackingHandler.init (some 5))
        [("a", EmitBehavior.ok), ("b", EmitBehavior.sendRaises),
         ("c", EmitBehavior.ok)]).1.step_counter =
      (TrackingHandler.init (some 5)).step_counter + 3 ∧
    ∀ s ∈ failedSteps (runEmits (TrackingHandler.init (some 5))
        [("a", EmitBehavior.ok), ("b", EmitBehavior.sendRaises),
         ("c", EmitBehavior.ok)]).2,
      s ∉ sentSteps (runEmits (TrackingHandler.init (some 5))
        [("a", EmitBehavior.ok), ("b", EmitBehavior.sendRaises),
         ("c", EmitBehavior.ok)]).2 :=
  failed_send_consumes_step (TrackingHandler.init (some 5))
    [("a", EmitBehavior.ok), ("b", EmitBehavior.sendRaises), ("c", EmitBehavior.ok)]
    (by decide)

/-- The singleton state right after `TrackingManager.__init__`: every field
`None`. -/
def initialState : TrackingManagerState :=
  { client := none, team_id := none, project_id := none, run := none, logger := none }

/-- C3 counterexample: with no explicit key and no environment key, and a
perfectly healthy server, `initialize_client` propagates the `ValueError`
(raised before the `try` block) instead of catching it and returning
`None`; the missing-credential error of step 1 is NOT caught inside the
call. -/
theorem initialize_client_missing_key_raises :
    initialize_client initialState none none "Default Team" "Default Project"
        "Default Run"
        ⟨.ok [], .ok ⟨1, "Default Team"⟩, .ok [], .ok ⟨1, "Default Project"⟩,
         .ok ⟨some 1, some "Default Run", some "running", some 1, none, none, none,
              none, none, none, none, none, none, none, none, none, none⟩⟩ =
      (initialState, .error .missingApiKey) := rfl

/-- C3 (amended). The credential check runs before the `try` block, so a
missing credential propagates as an exception with the singleton state
untouched.  Once the key resolves, the call never raises — it returns
either `None` or a logger — and every exception caught inside the try
block yields `None` in place of a usable logger: a failing team listing, a
failing team create (when the team was not found), a failing project
listing, a failing project create (when the project was not found), and a
failing run init each make the call return `None`. -/
theorem initialize_client_error_policy (st : TrackingManagerState)
    (api_key env_api_key : Option String) (team_name project_name run_name : String)
    (w : ServerBehavior) :
    (∀ e, resolveKey api_key env_api_key = .error e →
        initialize_client st api_key env_api_key team_name project_name run_name w =
          (st, .error e)) ∧
    (∀ k, resolveKey api_key env_api_key = .ok k →
        ((initialize_client st api_key env_api_key team_name project_name
            run_name w).2 = .ok none ∨
         ∃ lh, (initialize_client st api_key env_api_key team_name project_name
            run_name w).2 = .ok (some lh)) ∧
        ((∃ e, w.list_teams = .error e) →
          (initialize_client st api_key env_api_key team_name project_name
            run_name w).2 = .ok none) ∧
        (∀ teams, w.list_teams = .ok teams → findByName teams team_name = none →
          (∃ e, w.create_team = .error e) →
          (initialize_client st api_key env_api_key team_name project_name
            run_name w).2 = .ok none) ∧
        ((∃ e, w.list_projects = .error e) →
          (initialize_client st api_key env_api_key team_name project_name
            run_name w).2 = .ok none) ∧
        (∀ projects, w.list_projects = .ok projects →
          findByName projects project_name = none →
          (∃ e, w.create_project = .error e) →
          (initialize_client st api_key env_api_key team_name project_name
            run_name w).2 = .ok none) ∧
        ((∃ e, w.init_run = .error e) →
          (initialize_client st api_key env_api_key team_name project_name
            run_name w).2 = .ok none)) := by
  constructor
  · intro e he
    simp [initialize_client, he]
  · intro k hk
    refine ⟨?_, ?_, ?_, ?_, ?_, ?_⟩
    · unfold initialize_client
      rw [hk]
      dsimp only
      repeat' split
      all_goals first
        | exact Or.inl rfl
        | exact Or.inr ⟨_, rfl⟩
    · rintro ⟨e, hlt⟩
      simp [initialize_client, hk, hlt]
    · rintro teams hlt hnf ⟨e, hct⟩
      simp [initialize_client, hk, hlt, hnf, hct]
    · rintro ⟨e, hlp⟩
      unfold initialize_client
      rw [hk]
      dsimp only
      repeat' split
      all_goals simp_all
    · rintro projects hlp hnfp ⟨e, hcp⟩
      unfold initialize_client
      rw [hk]
      dsimp only
      repeat' split
      all_goals simp_all
    · rintro ⟨e, hir⟩
      unfold initialize_client
      rw [hk]
      dsimp only
      repeat' split
      all_goals simp_all

/-- C3 witness: with a key supplied and the server's team listing failing
with a 503, the amended theorem yields a normal return of `None` in place
of a logger at this input. -/
theorem initialize_client_error_policy_witness :
    (initialize_client initialState (some "key-123") none "T" "P" "R"
        ⟨.error ⟨503⟩, .error ⟨503⟩, .error ⟨503⟩, .error ⟨503⟩, .error ⟨503⟩⟩).2 =
      .ok none :=
  ((initialize_client_error_policy initialState (some "key-123") none "T" "P" "R"
      ⟨.error ⟨503⟩, .error ⟨503⟩, .error ⟨503⟩, .error ⟨503⟩, .error ⟨503⟩⟩).2
    "key-123" rfl).2.1 ⟨⟨503⟩, rfl⟩

/-- C10. `initialize_client` is not atomic on the singleton: with the key
resolved and the team found in the listing, (a) a failing project listing
leaves the call returning `None` with `client` and `team_id` freshly
assigned and `project_id`, `run`, `logger` at their previous values;
(b) with the project also resolved, a failing run init returns `None` with
`team_id` and `project_id` freshly assigned while `run` and `logger` keep
their previous values; (c) likewise when the project was created rather
than found; (d) a failing project-create leaves only `client` and
`team_id` updated. -/
theorem initialize_client_partial_mutation (st : TrackingManagerState)
    (api_key env_api_key : Option String) (team_name project_name run_name : String)
    (w : ServerBehavior) (key : String) (teams : List Entity) (tid : Nat)
    (hk : resolveKey api_key env_api_key = .ok key)
    (ht : w.list_teams = .ok teams) (hft : findByName teams team_name = some tid) :
    ((∃ e, w.list_projects = .error e) →
      initialize_client st api_key env_api_key team_name project_name run_name w =
        ({ st with client := some key, team_id := some tid }, .ok none)) ∧
    (∀ projects pid, w.list_projects = .ok projects →
      findByName projects project_name = some pid →
      (∃ e, w.init_run = .error e) →
      initialize_client st api_key env_api_key team_name project_name run_name w =
        ({ st with client := some key, team_id := some tid, project_id := some pid },
         .ok none)) ∧
    (∀ projects p, w.list_projects = .ok projects →
      findByName projects project_name = none →
      w.create_project = .ok p →
      (∃ e, w.init_run = .error e) →
      initialize_client st api_key env_api_key team_name project_name run_name w =
        ({ st with client := some key, team_id := some tid, project_id := some p.id },
         .ok none)) ∧
    (∀ projects, w.list_projects = .ok projects →
      findByName projects project_name = none →
      (∃ e, w.create_project = .error e) →
      initialize_client st api_key env_api_key team_name project_name run_name w =
        ({ st with client := some key, team_id := some tid }, .ok none)) := by
  refine ⟨?_, ?_, ?_, ?_⟩
  · rintro ⟨e, hlp⟩
    simp [initialize_client, hk, ht, hft, hlp]
  · rintro projects pid hlp hfp ⟨e, hir⟩
    simp [initialize_client, hk, ht, hft, hlp, hfp, hir]
  · rintro projects p hlp hfp hcp ⟨e, hir⟩
    simp [initialize_client, hk, ht, hft, hlp, hfp, hcp, hir]
  · rintro projects hlp hfp ⟨e, hcp⟩
    simp [initialize_client, hk, ht, hft, hlp, hfp, hcp]

/-- C10 witness: on the fresh singleton, team "T" found as id 3, project
"P" found as id 9, run init failing with a 503: the call returns `None`
with `team_id = 3` and `project_id = 9` set, `run` and `logger` still
`None`. -/
theorem initialize_client_partial_mutation_witness :
    initialize_client initialState (some "k") none "T" "P" "R"
        ⟨.ok [⟨3, "T"⟩], .error ⟨500⟩, .ok [⟨9, "P"⟩], .error ⟨500⟩, .error ⟨503⟩⟩ =
      ({ initialState with
          client := some "k"
          team_id := some 3
          project_id := some 9 }, .ok none) :=
  (initialize_client_partial_mutation initialState (some "k") none "T" "P" "R"
      ⟨.ok [⟨3, "T"⟩], .error ⟨500⟩, .ok [⟨9, "P"⟩], .error ⟨500⟩, .error ⟨503⟩⟩
      "k" [⟨3, "T"⟩] 3 rfl rfl (by simp [findByName])).2.1
    [⟨9, "P"⟩] 9 rfl (by simp [findByName]) ⟨⟨503⟩, rfl⟩
